import Mathlib

/-!
A shallow embedding of `src/class.py`: the record model `RomanEmperor`, the
collection `RomanEmpire` with its query operations, and the seeded dataset
built by `create_roman_empire`.  Python integers are modelled as `Int`,
Python `None`-able string fields as `Option String`, Python lists as `List`,
and the Python `set` of dynasty names as `Finset String`.  Python truthiness
of an optional string (`None` and `""` are falsy) is `pyTruthy`.
-/

set_option maxHeartbeats 1000000

/-- The record class `RomanEmperor` (src/class.py lines 1-18).  In the source,
`successor` is a mutable back-reference to another record object, assigned in a
second pass after all records exist; here it is modelled non-structurally by
the name of the successor, already holding its final post-wiring value.
`predecessor` is freeform text in the source itself. -/
structure RomanEmperor where
  name : String
  birth : Int
  death : Int
  reign_start : Int
  reign_end : Int
  dynasty : Option String := none
  notable_achievements : List String := []
  cause_of_death : Option String := none
  predecessor : Option String := none
  successor : Option String := none
  wives : List String := []
  zodiac : Option String := none
  deriving DecidableEq

/-- Python truthiness of an optional string: `None` and `""` are falsy. -/
def pyTruthy : Option String → Bool
  | none => false
  | some s => !(s == "")

/-- `RomanEmperor.reign_duration` (line 20-22). -/
def RomanEmperor.reign_duration (self : RomanEmperor) : Int :=
  self.reign_end - self.reign_start

/-- `RomanEmperor.age_at_death` (line 24-26). -/
def RomanEmperor.age_at_death (self : RomanEmperor) : Int :=
  self.death - self.birth

/-- `RomanEmperor.age_at_accession` (line 28-30). -/
def RomanEmperor.age_at_accession (self : RomanEmperor) : Int :=
  self.reign_start - self.birth

/-- The `info` line list built by `RomanEmperor.__str__` (lines 32-55):
five fixed header lines (name, lived, reign, dynasty-or-None,
zodiac-or-Unknown), then the wives section if `wives` is truthy (non-empty),
the achievements section if non-empty, and the cause-of-death line if truthy. -/
def RomanEmperor.infoLines (self : RomanEmperor) : List String :=
  ["Name: " ++ self.name,
   "Lived: " ++ toString self.birth ++ " CE - " ++ toString self.death ++
     " CE (Age: " ++ toString self.age_at_death ++ " years)",
   "Reign: " ++ toString self.reign_start ++ " CE - " ++ toString self.reign_end ++
     " CE (" ++ toString self.reign_duration ++ " years)",
   if pyTruthy self.dynasty then "Dynasty: " ++ self.dynasty.getD "" else "Dynasty: None",
   if pyTruthy self.zodiac then "Zodiac Sign: " ++ self.zodiac.getD ""
     else "Zodiac Sign: Unknown"]
  ++ (if self.wives.isEmpty then []
      else "Wives/Consorts:" :: self.wives.map (fun wife => "  - " ++ wife))
  ++ (if self.notable_achievements.isEmpty then []
      else "Notable Achievements:" ::
        self.notable_achievements.map (fun achievement => "  - " ++ achievement))
  ++ (if pyTruthy self.cause_of_death then
        ["Cause of Death: " ++ self.cause_of_death.getD ""] else [])

/-- `RomanEmperor.__str__` result: the info lines joined by newlines (line 55). -/
def RomanEmperor.render (self : RomanEmperor) : String :=
  String.intercalate "\n" self.infoLines

/-- The collection class `RomanEmpire` (lines 58-63): an ordered list of
records plus a set of dynasty names. -/
structure RomanEmpire where
  emperors : List RomanEmperor := []
  dynasties : Finset String := ∅

/-- `RomanEmpire.__init__` (lines 61-63): empty list, empty set. -/
def RomanEmpire.new : RomanEmpire := {}

/-- `RomanEmpire.add_emperor` (lines 65-69): append the record; if its
`dynasty` is truthy (present and non-empty), insert it into `dynasties`. -/
def RomanEmpire.add_emperor (self : RomanEmpire) (emperor : RomanEmperor) : RomanEmpire :=
  { emperors := self.emperors ++ [emperor],
    dynasties := if pyTruthy emperor.dynasty
                 then insert (emperor.dynasty.getD "") self.dynasties
                 else self.dynasties }

/-- `RomanEmpire.get_emperor_by_year` (lines 78-84): a loop that appends each
record whose inclusive reign interval contains the year. -/
def RomanEmpire.get_emperor_by_year (self : RomanEmpire) (year : Int) : List RomanEmperor :=
  self.emperors.foldl
    (fun ruling_emperors emperor =>
      if emperor.reign_start ≤ year ∧ year ≤ emperor.reign_end
      then ruling_emperors ++ [emperor] else ruling_emperors)
    []

/-- `RomanEmpire.get_emperors_by_period` (lines 90-93): the comprehension
keeping records not excluded by `reign_end < start_year or reign_start > end_year`. -/
def RomanEmpire.get_emperors_by_period (self : RomanEmpire)
    (start_year end_year : Int) : List RomanEmperor :=
  self.emperors.filter
    (fun emperor =>
      !(decide (emperor.reign_end < start_year) || decide (emperor.reign_start > end_year)))

/-- Python `sorted(xs, key=key, reverse=reverse)` for an integer key: a stable
sort, ascending on the key, with `reverse` flipping the comparison (in Python,
`reverse=True` keeps equal-key elements in their original relative order).
Modelled by insertion sort, which is stable: under the same total preorder any
two stable sorts of a list coincide, so this computes exactly the result of
the Python call. -/
def pySorted (key : RomanEmperor → Int) (reverse : Bool)
    (xs : List RomanEmperor) : List RomanEmperor :=
  if reverse then List.insertionSort (fun a b => key b ≤ key a) xs
  else List.insertionSort (fun a b => key a ≤ key b) xs

/-- Python list slicing `xs[:n]` for an `Int` bound `n`: for `0 ≤ n` the first
`n` elements (saturating), for negative `n` all but the last `|n|` elements. -/
def pySlice {α : Type} (xs : List α) (n : Int) : List α :=
  if 0 ≤ n then xs.take n.toNat else xs.take (xs.length - n.natAbs)

/-- `RomanEmpire.get_longest_reigning` (lines 99-101):
`sorted(self.emperors, key=reign_duration, reverse=True)[:top_n]`. -/
def RomanEmpire.get_longest_reigning (self : RomanEmpire) (top_n : Int) : List RomanEmperor :=
  pySlice (pySorted RomanEmperor.reign_duration true self.emperors) top_n

/-- `RomanEmpire.get_shortest_reigning` (lines 103-105). -/
def RomanEmpire.get_shortest_reigning (self : RomanEmpire) (top_n : Int) : List RomanEmperor :=
  pySlice (pySorted RomanEmperor.reign_duration false self.emperors) top_n

/-- `RomanEmpire.get_oldest_at_death` (lines 107-109). -/
def RomanEmpire.get_oldest_at_death (self : RomanEmpire) (top_n : Int) : List RomanEmperor :=
  pySlice (pySorted RomanEmperor.age_at_death true self.emperors) top_n

/-- `RomanEmpire.get_youngest_at_accession` (lines 111-113). -/
def RomanEmpire.get_youngest_at_accession (self : RomanEmpire) (top_n : Int) : List RomanEmperor :=
  pySlice (pySorted RomanEmperor.age_at_accession false self.emperors) top_n

/-- `RomanEmpire.get_most_achievements` (lines 115-117): key is the length of
`notable_achievements`. -/
def RomanEmpire.get_most_achievements (self : RomanEmpire) (top_n : Int) : List RomanEmperor :=
  pySlice (pySorted (fun x => (x.notable_achievements.length : Int)) true self.emperors) top_n

/-- Python `s.lower()` viewed as a character list: lower-case each character
of the string. -/
def pyLowerChars (s : String) : List Char :=
  s.data.map Char.toLower

/-- Python `needle.lower() in haystack.lower()`: case-insensitive substring
test, via the character lists of the lowered strings. -/
def pyInStr (needle haystack : String) : Bool :=
  (pyLowerChars haystack).tails.any (fun t => (pyLowerChars needle).isPrefixOf t)

/-- `RomanEmpire.get_emperors_by_wife` (lines 119-127): a loop that appends a
record once if some entry of its `wives` contains the fragment
case-insensitively (the inner loop breaks at the first matching wife). -/
def RomanEmpire.get_emperors_by_wife (self : RomanEmpire) (wife_name : String) : List RomanEmperor :=
  self.emperors.foldl
    (fun emperors_with_wife emperor =>
      if emperor.wives.any (fun wife => pyInStr wife_name wife)
      then emperors_with_wife ++ [emperor] else emperors_with_wife)
    []

/-! The seeded dataset of `create_roman_empire` (lines 130-609).  Each record
is transcribed literally from the source; `successor` holds its final
post-wiring value (the wiring pass at lines 591-607 assigns successors only
up to `marcus_aurelius`). -/

/-- Seed record `augustus` (lines 135-155). -/
def augustus : RomanEmperor :=
  { name := "Augustus (Octavian)",
    birth := -63,
    death := 14,
    reign_start := -27,
    reign_end := 14,
    dynasty := some "Julio-Claudian",
    notable_achievements :=
      ["First Roman Emperor",
       "Established the Pax Romana (Roman Peace)",
       "Rebuilt much of Rome\x27s infrastructure",
       "Established a standing army and Praetorian Guard"],
    cause_of_death := some "Natural causes",
    wives :=
      ["Clodia Pulchra (divorced)",
       "Scribonia (divorced)",
       "Livia Drusilla"],
    zodiac := some "Libra",
    successor := some "Tiberius" }

/-- Seed record `tiberius` (lines 157-176). -/
def tiberius : RomanEmperor :=
  { name := "Tiberius",
    birth := -42,
    death := 37,
    reign_start := 14,
    reign_end := 37,
    dynasty := some "Julio-Claudian",
    notable_achievements :=
      ["Expanded the empire in Germania",
       "Reformed the imperial treasury",
       "Military victories in Pannonia and Illyricum"],
    cause_of_death := some "Either natural causes or murdered by Caligula",
    predecessor := some "Augustus",
    wives :=
      ["Vipsania Agrippina (divorced)",
       "Julia the Elder (Augustus\x27s daughter)"],
    zodiac := some "Scorpio",
    successor := some "Caligula (Gaius)" }

/-- Seed record `caligula` (lines 178-198). -/
def caligula : RomanEmperor :=
  { name := "Caligula (Gaius)",
    birth := 12,
    death := 41,
    reign_start := 37,
    reign_end := 41,
    dynasty := some "Julio-Claudian",
    notable_achievements :=
      ["Built new aqueducts and harbors",
       "Annexed Mauretania"],
    cause_of_death := some "Assassinated by Praetorian Guard",
    predecessor := some "Tiberius",
    wives :=
      ["Junia Claudilla",
       "Livia Orestilla (briefly)",
       "Lollia Paulina (briefly)",
       "Milonia Caesonia"],
    zodiac := some "Virgo",
    successor := some "Claudius" }

/-- Seed record `claudius` (lines 200-222). -/
def claudius : RomanEmperor :=
  { name := "Claudius",
    birth := -10,
    death := 54,
    reign_start := 41,
    reign_end := 54,
    dynasty := some "Julio-Claudian",
    notable_achievements :=
      ["Conquered Britain",
       "Expanded the imperial bureaucracy",
       "Built many public works including the Aqua Claudia aqueduct",
       "Reformed the legal system"],
    cause_of_death := some "Poisoned (likely by his wife Agrippina)",
    predecessor := some "Caligula",
    wives :=
      ["Plautia Urgulanilla (divorced)",
       "Aelia Paetina (divorced)",
       "Valeria Messalina (executed)",
       "Agrippina the Younger (his niece)"],
    zodiac := some "Leo",
    successor := some "Nero" }

/-- Seed record `nero` (lines 224-244). -/
def nero : RomanEmperor :=
  { name := "Nero",
    birth := 37,
    death := 68,
    reign_start := 54,
    reign_end := 68,
    dynasty := some "Julio-Claudian",
    notable_achievements :=
      ["Built the Domus Aurea (Golden House)",
       "Initially popular for tax reforms",
       "Diplomatic solution to conflict with Parthia"],
    cause_of_death := some "Suicide after being declared a public enemy",
    predecessor := some "Claudius",
    wives :=
      ["Claudia Octavia (executed)",
       "Poppaea Sabina (died; possibly kicked to death by Nero)",
       "Statilia Messalina"],
    zodiac := some "Sagittarius",
    successor := some "Galba" }

/-- Seed record `galba` (lines 247-262); `wives` is empty in the source. -/
def galba : RomanEmperor :=
  { name := "Galba",
    birth := -3,
    death := 69,
    reign_start := 68,
    reign_end := 69,
    dynasty := some "Year of the Four Emperors",
    notable_achievements :=
      ["First emperor in the Year of the Four Emperors",
       "Attempted financial reforms"],
    cause_of_death := some "Assassinated in a coup led by Otho",
    predecessor := some "Nero",
    wives := [],
    zodiac := some "Capricorn",
    successor := some "Otho" }

/-- Seed record `otho` (lines 264-281). -/
def otho : RomanEmperor :=
  { name := "Otho",
    birth := 32,
    death := 69,
    reign_start := 69,
    reign_end := 69,
    dynasty := some "Year of the Four Emperors",
    notable_achievements :=
      ["Former governor of Lusitania",
       "Briefly recognized by the Senate"],
    cause_of_death := some "Suicide after defeat in battle",
    predecessor := some "Galba",
    wives :=
      ["Poppaea Sabina (later married Nero)"],
    zodiac := some "Aries",
    successor := some "Vitellius" }

/-- Seed record `vitellius` (lines 283-301). -/
def vitellius : RomanEmperor :=
  { name := "Vitellius",
    birth := 15,
    death := 69,
    reign_start := 69,
    reign_end := 69,
    dynasty := some "Year of the Four Emperors",
    notable_achievements :=
      ["Former governor of Germania Inferior",
       "Lavish banquets and entertainments"],
    cause_of_death := some "Executed by Vespasian\x27s troops",
    predecessor := some "Otho",
    wives :=
      ["Petronia",
       "Galeria Fundana"],
    zodiac := some "Virgo",
    successor := some "Vespasian" }

/-- Seed record `vespasian` (lines 304-324). -/
def vespasian : RomanEmperor :=
  { name := "Vespasian",
    birth := 9,
    death := 79,
    reign_start := 69,
    reign_end := 79,
    dynasty := some "Flavian",
    notable_achievements :=
      ["Restored stability after civil war",
       "Began construction of the Colosseum",
       "Financial reforms and balanced budget",
       "Conquered Judaea and destroyed the Temple in Jerusalem"],
    cause_of_death := some "Natural causes",
    predecessor := some "Vitellius",
    wives :=
      ["Flavia Domitilla",
       "Caenis (concubine after Domitilla\x27s death)"],
    zodiac := some "Scorpio",
    successor := some "Titus" }

/-- Seed record `titus` (lines 326-345). -/
def titus : RomanEmperor :=
  { name := "Titus",
    birth := 39,
    death := 81,
    reign_start := 79,
    reign_end := 81,
    dynasty := some "Flavian",
    notable_achievements :=
      ["Completed the Colosseum",
       "Handled the eruption of Mount Vesuvius",
       "Provided relief after a fire in Rome"],
    cause_of_death := some "Fever (possibly malaria)",
    predecessor := some "Vespasian",
    wives :=
      ["Arrecina Tertulla (died)",
       "Marcia Furnilla (divorced)"],
    zodiac := some "Capricorn",
    successor := some "Domitian" }

/-- Seed record `domitian` (lines 347-366). -/
def domitian : RomanEmperor :=
  { name := "Domitian",
    birth := 51,
    death := 96,
    reign_start := 81,
    reign_end := 96,
    dynasty := some "Flavian",
    notable_achievements :=
      ["Strengthened the economy and currency",
       "Expanded the border fortifications",
       "Major building programs in Rome",
       "Military campaigns in Germania and Dacia"],
    cause_of_death := some "Assassinated in palace conspiracy",
    predecessor := some "Titus",
    wives :=
      ["Domitia Longina"],
    zodiac := some "Scorpio",
    successor := some "Nerva" }

/-- Seed record `nerva` (lines 369-385); `wives` is empty in the source. -/
def nerva : RomanEmperor :=
  { name := "Nerva",
    birth := 30,
    death := 98,
    reign_start := 96,
    reign_end := 98,
    dynasty := some "Nerva-Antonine",
    notable_achievements :=
      ["Established the tradition of adoptive succession",
       "Land reforms to help the poor",
       "Reduced taxes and improved the grain supply"],
    cause_of_death := some "Natural causes",
    predecessor := some "Domitian",
    wives := [],
    zodiac := some "Aquarius",
    successor := some "Trajan" }

/-- Seed record `trajan` (lines 387-407). -/
def trajan : RomanEmperor :=
  { name := "Trajan",
    birth := 53,
    death := 117,
    reign_start := 98,
    reign_end := 117,
    dynasty := some "Nerva-Antonine",
    notable_achievements :=
      ["Expanded the Empire to its greatest territorial extent",
       "Conquered Dacia and its gold mines",
       "Extensive public building program",
       "Created alimenta welfare program for poor children",
       "Trajan\x27s Column and Trajan\x27s Forum"],
    cause_of_death := some "Illness (possibly stroke)",
    predecessor := some "Nerva",
    wives :=
      ["Pompeia Plotina"],
    zodiac := some "Virgo",
    successor := some "Hadrian" }

/-- Seed record `hadrian` (lines 409-429). -/
def hadrian : RomanEmperor :=
  { name := "Hadrian",
    birth := 76,
    death := 138,
    reign_start := 117,
    reign_end := 138,
    dynasty := some "Nerva-Antonine",
    notable_achievements :=
      ["Built Hadrian\x27s Wall in Britain",
       "Extensive traveling throughout the empire",
       "Promoted Greek culture (philhellenism)",
       "Built the Pantheon in its current form",
       "Built his massive villa at Tivoli"],
    cause_of_death := some "Heart failure",
    predecessor := some "Trajan",
    wives :=
      ["Vibia Sabina (Trajan\x27s grandniece)"],
    zodiac := some "Aquarius",
    successor := some "Antoninus Pius" }

/-- Seed record `antoninus_pius` (lines 431-450). -/
def antoninus_pius : RomanEmperor :=
  { name := "Antoninus Pius",
    birth := 86,
    death := 161,
    reign_start := 138,
    reign_end := 161,
    dynasty := some "Nerva-Antonine",
    notable_achievements :=
      ["One of the most peaceful reigns",
       "Effective administration and sound finances",
       "Legal reforms protecting slaves and orphans",
       "Built the Antonine Wall in Scotland"],
    cause_of_death := some "Natural causes",
    predecessor := some "Hadrian",
    wives :=
      ["Faustina the Elder"],
    zodiac := some "Virgo",
    successor := some "Marcus Aurelius" }

/-- Seed record `marcus_aurelius` (lines 452-471). -/
def marcus_aurelius : RomanEmperor :=
  { name := "Marcus Aurelius",
    birth := 121,
    death := 180,
    reign_start := 161,
    reign_end := 180,
    dynasty := some "Nerva-Antonine",
    notable_achievements :=
      ["Philosopher emperor who wrote \x27Meditations\x27",
       "Successfully defended borders against Germanic tribes",
       "Dealt with the Antonine Plague",
       "Last of the \x27Five Good Emperors\x27"],
    cause_of_death := some "Illness (possibly plague)",
    predecessor := some "Antoninus Pius",
    wives :=
      ["Faustina the Younger (daughter of Antoninus Pius)"],
    zodiac := some "Aries",
    successor := some "Commodus" }

/-- Seed record `commodus` (lines 473-491); no successor is wired for it or
any later record. -/
def commodus : RomanEmperor :=
  { name := "Commodus",
    birth := 161,
    death := 192,
    reign_start := 180,
    reign_end := 192,
    dynasty := some "Nerva-Antonine",
    notable_achievements :=
      ["Ended wars with Germanic tribes",
       "Presented himself as Hercules",
       "Participated as a gladiator in the Colosseum"],
    cause_of_death := some "Strangled in his bath after failed poisoning",
    predecessor := some "Marcus Aurelius",
    wives :=
      ["Bruttia Crispina (exiled and later executed)"],
    zodiac := some "Virgo" }

/-- Seed record `septimius_severus` (lines 494-514). -/
def septimius_severus : RomanEmperor :=
  { name := "Septimius Severus",
    birth := 145,
    death := 211,
    reign_start := 193,
    reign_end := 211,
    dynasty := some "Severan",
    notable_achievements :=
      ["Military reforms favoring the army",
       "Campaigns in Parthia and Britain",
       "Increased the role of the military in government",
       "Restored stability after civil war"],
    cause_of_death := some "Illness during campaign in Britain",
    predecessor := some "Pertinax/Didius Julianus",
    wives :=
      ["Paccia Marciana (died)",
       "Julia Domna (Syrian noblewoman)"],
    zodiac := some "Aries" }

/-- Seed record `caracalla` (lines 516-535). -/
def caracalla : RomanEmperor :=
  { name := "Caracalla",
    birth := 188,
    death := 217,
    reign_start := 211,
    reign_end := 217,
    dynasty := some "Severan",
    notable_achievements :=
      ["Constitutio Antoniniana (granted citizenship to all free men)",
       "Built the massive Baths of Caracalla",
       "Military campaigns against Germanic tribes and Parthians",
       "Doubled pay for soldiers"],
    cause_of_death := some "Assassinated by a disgruntled soldier",
    predecessor := some "Septimius Severus",
    wives :=
      ["Fulvia Plautilla (executed)"],
    zodiac := some "Aries" }

/-- Seed record `diocletian` (lines 538-558). -/
def diocletian : RomanEmperor :=
  { name := "Diocletian",
    birth := 244,
    death := 311,
    reign_start := 284,
    reign_end := 305,
    dynasty := some "Tetrarchy",
    notable_achievements :=
      ["Ended the Crisis of the Third Century",
       "Established the Tetrarchy (rule of four)",
       "Administrative reforms dividing the empire",
       "Economic reforms including price controls",
       "Major persecution of Christians"],
    cause_of_death := some "Natural causes (retired)",
    predecessor := some "Numerian",
    wives :=
      ["Prisca"],
    zodiac := some "Capricorn" }

/-- Seed record `constantine` (lines 561-583). -/
def constantine : RomanEmperor :=
  { name := "Constantine the Great",
    birth := 272,
    death := 337,
    reign_start := 306,
    reign_end := 337,
    dynasty := some "Constantinian",
    notable_achievements :=
      ["First Christian emperor",
       "Edict of Milan (religious tolerance)",
       "Founded Constantinople as new capital",
       "Convened the First Council of Nicaea",
       "Reunited the empire after civil wars",
       "Created new government and military structure"],
    cause_of_death := some "Illness",
    predecessor := some "Constantius I Chlorus (in the West)",
    wives :=
      ["Minervina",
       "Fausta (daughter of Maximian)"],
    zodiac := some "Pisces" }

/-- The seeding loop order of `create_roman_empire` (lines 586-588). -/
def seedEmperors : List RomanEmperor :=
  [augustus, tiberius, caligula, claudius, nero, galba, otho, vitellius,
   vespasian, titus, domitian, nerva, trajan, hadrian, antoninus_pius,
   marcus_aurelius, commodus, septimius_severus, caracalla, diocletian, constantine]

/-- `create_roman_empire` (lines 130-609): a fresh empire populated by calling
`add_emperor` on each seed record in order. -/
def create_roman_empire : RomanEmpire :=
  seedEmperors.foldl RomanEmpire.add_emperor RomanEmpire.new

/-! State-transformer renderings of the five top-N query methods: each method
receives `self` and could in principle reassign its fields, so its effect is a
result paired with the post-call state.  The bodies (lines 99-117) only read
`self.emperors` — Python `sorted` returns a fresh list — so the post-call
state is the input state. -/

/-- `get_longest_reigning` as a state transformer. -/
def RomanEmpire.get_longest_reigningS (self : RomanEmpire) (top_n : Int) :
    List RomanEmperor × RomanEmpire :=
  (self.get_longest_reigning top_n, self)

/-- `get_shortest_reigning` as a state transformer. -/
def RomanEmpire.get_shortest_reigningS (self : RomanEmpire) (top_n : Int) :
    List RomanEmperor × RomanEmpire :=
  (self.get_shortest_reigning top_n, self)

/-- `get_oldest_at_death` as a state transformer. -/
def RomanEmpire.get_oldest_at_deathS (self : RomanEmpire) (top_n : Int) :
    List RomanEmperor × RomanEmpire :=
  (self.get_oldest_at_death top_n, self)

/-- `get_youngest_at_accession` as a state transformer. -/
def RomanEmpire.get_youngest_at_accessionS (self : RomanEmpire) (top_n : Int) :
    List RomanEmperor × RomanEmpire :=
  (self.get_youngest_at_accession top_n, self)

/-- `get_most_achievements` as a state transformer. -/
def RomanEmpire.get_most_achievementsS (self : RomanEmpire) (top_n : Int) :
    List RomanEmperor × RomanEmpire :=
  (self.get_most_achievements top_n, self)

/-- The set of truthy dynasty labels (present and non-empty) across a record
list: the value `add_emperor` actually accumulates. -/
def truthyDynastyValues (rs : List RomanEmperor) : Finset String :=
  (rs.filterMap (fun r => if pyTruthy r.dynasty then r.dynasty else none)).toFinset

/-- The invariant value stated by the spec, following its words: the set of
non-absent `dynasty` values across all records (an empty-string label counts
as a present value here). -/
def specNonAbsentDynastyValues (rs : List RomanEmperor) : Finset String :=
  (rs.filterMap RomanEmperor.dynasty).toFinset

/-- A record whose `dynasty` and `zodiac` are the empty string rather than
absent; Python truthiness treats both as falsy. -/
def blankLabelEmperor : RomanEmperor :=
  { name := "Blank",
    birth := 0,
    death := 10,
    reign_start := 1,
    reign_end := 2,
    dynasty := some "",
    zodiac := some "" }

/-! Helper lemmas shared by several claims. -/

/-- A Python-style accumulate loop (append when the condition holds) computes
a filter appended to the accumulator. -/
theorem foldl_append_eq_filter {α : Type} (p : α → Prop) [DecidablePred p]
    (l acc : List α) :
    l.foldl (fun a r => if p r then a ++ [r] else a) acc
      = acc ++ l.filter (fun r => decide (p r)) := by
  induction l generalizing acc with
  | nil => simp
  | cons r rest ih =>
    rw [List.foldl_cons, List.filter_cons]
    by_cases h : p r
    · rw [if_pos h, ih]
      simp [h]
    · rw [if_neg h, ih]
      simp [h]

/-- `get_emperor_by_year` equals a filter over the stored records. -/
theorem get_emperor_by_year_eq_filter (e : RomanEmpire) (y : Int) :
    e.get_emperor_by_year y
      = e.emperors.filter (fun r => decide (r.reign_start ≤ y ∧ y ≤ r.reign_end)) := by
  simpa [RomanEmpire.get_emperor_by_year] using
    foldl_append_eq_filter
      (fun r : RomanEmperor => r.reign_start ≤ y ∧ y ≤ r.reign_end) e.emperors []

/-- C1: for every record, the derived computations equal the stated arithmetic
over the stored fields — `reign_duration = reign_end - reign_start`,
`age_at_death = death - birth`, `age_at_accession = reign_start - birth` —
as total functions, with no error conditions. -/
theorem C1_derived_computations (r : RomanEmperor) :
    r.reign_duration = r.reign_end - r.reign_start ∧
    r.age_at_death = r.death - r.birth ∧
    r.age_at_accession = r.reign_start - r.birth :=
  ⟨rfl, rfl, rfl⟩

/-- Witness for C1 at the seed record `augustus`. -/
theorem C1_derived_computations_witness :
    augustus.reign_duration = augustus.reign_end - augustus.reign_start ∧
    augustus.age_at_death = augustus.death - augustus.birth ∧
    augustus.age_at_accession = augustus.reign_start - augustus.birth :=
  C1_derived_computations augustus

/-- C2: `get_emperor_by_year y` returns exactly the stored records whose
inclusive reign interval contains `y` (it equals the corresponding filter, so
insertion order is preserved and the result is a sublist of `emperors`), and
it is the empty list — not an error — when no record matches. -/
theorem C2_find_by_year (e : RomanEmpire) (y : Int) :
    e.get_emperor_by_year y
        = e.emperors.filter (fun r => decide (r.reign_start ≤ y ∧ y ≤ r.reign_end)) ∧
    (∀ r : RomanEmperor,
        r ∈ e.get_emperor_by_year y ↔
          r ∈ e.emperors ∧ r.reign_start ≤ y ∧ y ≤ r.reign_end) ∧
    (e.get_emperor_by_year y).Sublist e.emperors ∧
    ((∀ r ∈ e.emperors, ¬(r.reign_start ≤ y ∧ y ≤ r.reign_end)) →
        e.get_emperor_by_year y = []) := by
  have hf := get_emperor_by_year_eq_filter e y
  refine ⟨hf, ?_, ?_, ?_⟩
  · intro r
    rw [hf, List.mem_filter]
    simp
  · rw [hf]
    exact List.filter_sublist _
  · intro hnone
    rw [hf]
    rw [List.filter_eq_nil_iff]
    intro a ha
    simp [hnone a ha]

/-- Witness for C2: in the seeded empire no reign interval contains the year
500, and the query returns the empty list. -/
theorem C2_find_by_year_witness :
    create_roman_empire.get_emperor_by_year 500 = [] :=
  (C2_find_by_year create_roman_empire 500).2.2.2 (by decide)

/-- C3: `get_emperors_by_period` keeps exactly the records whose reign
interval overlaps `[start_year, end_year]`: a stored record is excluded if and
only if `reign_end < start_year` or `reign_start > end_year`, and the result
is a sublist of `emperors` (insertion order preserved). -/
theorem C3_by_period (e : RomanEmpire) (start_year end_year : Int) :
    (∀ r : RomanEmperor,
        r ∈ e.get_emperors_by_period start_year end_year ↔
          r ∈ e.emperors ∧ ¬(r.reign_end < start_year ∨ r.reign_start > end_year)) ∧
    (∀ r ∈ e.emperors,
        (r ∉ e.get_emperors_by_period start_year end_year ↔
          (r.reign_end < start_year ∨ r.reign_start > end_year))) ∧
    (e.get_emperors_by_period start_year end_year).Sublist e.emperors := by
  have hmem : ∀ r : RomanEmperor,
      r ∈ e.get_emperors_by_period start_year end_year ↔
        r ∈ e.emperors ∧ ¬(r.reign_end < start_year ∨ r.reign_start > end_year) := by
    intro r
    rw [RomanEmpire.get_emperors_by_period, List.mem_filter]
    simp [not_or]
  refine ⟨hmem, ?_, ?_⟩
  · intro r hr
    rw [hmem r]
    constructor
    · intro hni
      by_contra hcond
      exact hni ⟨hr, hcond⟩
    · intro hcond hni
      exact hni.2 hcond
  · exact List.filter_sublist _

/-- Witness for C3: in the seeded empire, Galba (reign 68-69) is excluded
from the period [100, 200] while Trajan (reign 98-117) overlaps it. -/
theorem C3_by_period_witness :
    galba ∉ create_roman_empire.get_emperors_by_period 100 200 ∧
    trajan ∈ create_roman_empire.get_emperors_by_period 100 200 :=
  ⟨((C3_by_period create_roman_empire 100 200).2.1 galba (by decide)).mpr (by decide),
   ((C3_by_period create_roman_empire 100 200).1 trajan).mpr (by decide)⟩

/-- `pySlice` with a bound at least the length returns the whole list. -/
theorem pySlice_of_length_le {α : Type} (xs : List α) (n : Int)
    (h : (xs.length : Int) ≤ n) : pySlice xs n = xs := by
  have h0 : (0 : Int) ≤ n := le_trans (Int.ofNat_nonneg xs.length) h
  rw [pySlice, if_pos h0]
  apply List.take_of_length_le
  have := Int.toNat_le_toNat h
  simpa using this

/-- `pySlice` with bound `0` is empty. -/
theorem pySlice_zero {α : Type} (xs : List α) : pySlice xs 0 = [] := by
  simp [pySlice]

/-- `pySlice` with a negative bound keeps all but the last `|n|` elements. -/
theorem pySlice_neg {α : Type} (xs : List α) (n : Int) (h : n < 0) :
    pySlice xs n = xs.take (xs.length - n.natAbs) := by
  rw [pySlice, if_neg (by omega)]

/-- `pySorted` preserves length. -/
theorem length_pySorted (key : RomanEmperor → Int) (reverse : Bool)
    (xs : List RomanEmperor) : (pySorted key reverse xs).length = xs.length := by
  rw [pySorted]
  cases reverse <;> simp [List.length_insertionSort]

/-- `pySorted` is a permutation of its input. -/
theorem pySorted_perm (key : RomanEmperor → Int) (reverse : Bool)
    (xs : List RomanEmperor) : (pySorted key reverse xs).Perm xs := by
  rw [pySorted]
  cases reverse <;> exact List.perm_insertionSort _ _

/-- C4 fails as stated: `-1 ≤ 0`, yet on the seeded empire
`get_longest_reigning (-1)` has 20 elements (Python slicing with a negative
bound drops elements from the end), not an empty sequence. -/
theorem C4_counterexample :
    ((-1 : Int) ≤ 0) ∧
    (create_roman_empire.get_longest_reigning (-1)).length = 20 ∧
    create_roman_empire.get_longest_reigning (-1) ≠ [] := by
  refine ⟨by decide, rfl, ?_⟩
  intro hnil
  have h20 : (create_roman_empire.get_longest_reigning (-1)).length = 20 := rfl
  rw [hnil] at h20
  simp at h20

/-- C4 amended: for each of the five top-N operations, a bound at least the
collection size returns the entire sorted collection (a permutation of the
stored records — no padding, no duplication); a bound of exactly `0` returns
the empty sequence; and a negative bound follows Python slice semantics,
keeping the sorted collection minus its last `|n|` elements (empty only when
`|n|` reaches the collection size). -/
theorem C4_amended_top_n (e : RomanEmpire) (n : Int) :
    ((e.emperors.length : Int) ≤ n →
      e.get_longest_reigning n = pySorted RomanEmperor.reign_duration true e.emperors ∧
      e.get_shortest_reigning n = pySorted RomanEmperor.reign_duration false e.emperors ∧
      e.get_oldest_at_death n = pySorted RomanEmperor.age_at_death true e.emperors ∧
      e.get_youngest_at_accession n = pySorted RomanEmperor.age_at_accession false e.emperors ∧
      e.get_most_achievements n
        = pySorted (fun x => (x.notable_achievements.length : Int)) true e.emperors ∧
      (e.get_longest_reigning n).Perm e.emperors) ∧
    (e.get_longest_reigning 0 = [] ∧ e.get_shortest_reigning 0 = [] ∧
     e.get_oldest_at_death 0 = [] ∧ e.get_youngest_at_accession 0 = [] ∧
     e.get_most_achievements 0 = []) ∧
    (n < 0 →
      e.get_longest_reigning n
        = (pySorted RomanEmperor.reign_duration true e.emperors).take
            (e.emperors.length - n.natAbs) ∧
      e.get_shortest_reigning n
        = (pySorted RomanEmperor.reign_duration false e.emperors).take
            (e.emperors.length - n.natAbs) ∧
      e.get_oldest_at_death n
        = (pySorted RomanEmperor.age_at_death true e.emperors).take
            (e.emperors.length - n.natAbs) ∧
      e.get_youngest_at_accession n
        = (pySorted RomanEmperor.age_at_accession false e.emperors).take
            (e.emperors.length - n.natAbs) ∧
      e.get_most_achievements n
        = (pySorted (fun x => (x.notable_achievements.length : Int)) true e.emperors).take
            (e.emperors.length - n.natAbs)) := by
  refine ⟨?_, ?_, ?_⟩
  · intro h
    have h1 : ∀ (key : RomanEmperor → Int) (rev : Bool),
        pySlice (pySorted key rev e.emperors) n = pySorted key rev e.emperors := by
      intro key rev
      apply pySlice_of_length_le
      rw [length_pySorted]
      exact h
    refine ⟨h1 _ _, h1 _ _, h1 _ _, h1 _ _, h1 _ _, ?_⟩
    rw [RomanEmpire.get_longest_reigning, h1 _ _]
    exact pySorted_perm _ _ _
  · exact ⟨pySlice_zero _, pySlice_zero _, pySlice_zero _, pySlice_zero _, pySlice_zero _⟩
  · intro h
    have h2 : ∀ (key : RomanEmperor → Int) (rev : Bool),
        pySlice (pySorted key rev e.emperors) n
          = (pySorted key rev e.emperors).take (e.emperors.length - n.natAbs) := by
      intro key rev
      rw [pySlice_neg _ _ h, length_pySorted]
    exact ⟨h2 _ _, h2 _ _, h2 _ _, h2 _ _, h2 _ _⟩

/-- Witness for the amended C4 on the seeded empire: a bound of 1000 returns
the whole sorted collection, a bound of 0 returns the empty sequence, and a
bound of -1 drops the last element of the sorted collection. -/
theorem C4_amended_top_n_witness :
    create_roman_empire.get_longest_reigning 1000
        = pySorted RomanEmperor.reign_duration true create_roman_empire.emperors ∧
    create_roman_empire.get_oldest_at_death 0 = [] ∧
    create_roman_empire.get_shortest_reigning (-1)
        = (pySorted RomanEmperor.reign_duration false create_roman_empire.emperors).take
            (create_roman_empire.emperors.length - (-1 : Int).natAbs) :=
  ⟨((C4_amended_top_n create_roman_empire 1000).1 (by decide)).1,
   ((C4_amended_top_n create_roman_empire 0).2.1).2.2.1,
   ((C4_amended_top_n create_roman_empire (-1)).2.2 (by decide)).2.1⟩

/-- C6: on the seeded empire, `get_longest_reigning 3` returns the three
records of greatest reign duration — Augustus (41), Constantine (31),
Tiberius (23) — every other stored record has duration at most 23; the tie at
duration 23 between Tiberius and Antoninus Pius is broken in favour of
Tiberius, who precedes Antoninus Pius in insertion order; and the first
returned record has reign duration 41 > 40. -/
theorem C6_top_longest_three :
    create_roman_empire.get_longest_reigning 3 = [augustus, constantine, tiberius] ∧
    (create_roman_empire.get_longest_reigning 3).map RomanEmperor.reign_duration
        = [41, 31, 23] ∧
    (∀ r ∈ create_roman_empire.emperors,
        r ∉ create_roman_empire.get_longest_reigning 3 → r.reign_duration ≤ 23) ∧
    tiberius.reign_duration = antoninus_pius.reign_duration ∧
    antoninus_pius ∈ create_roman_empire.emperors ∧
    antoninus_pius ∉ create_roman_empire.get_longest_reigning 3 ∧
    create_roman_empire.emperors.indexOf tiberius
        < create_roman_empire.emperors.indexOf antoninus_pius ∧
    ((create_roman_empire.get_longest_reigning 3).head?).map RomanEmperor.reign_duration
        = some 41 ∧ (41 : Int) > 40 := by
  exact ⟨rfl, rfl, by decide, rfl, by decide, by decide, by decide, rfl, by decide⟩

/-- C7 fails as stated: on the seeded empire the year-69 query returns four
records, not three — the reign of Vespasian (69-79) also contains 69. -/
theorem C7_counterexample :
    (create_roman_empire.get_emperor_by_year 69).length = 4 ∧
    create_roman_empire.get_emperor_by_year 69 ≠ [galba, otho, vitellius] := by
  refine ⟨rfl, ?_⟩
  intro h
  have h4 : (create_roman_empire.get_emperor_by_year 69).length = 4 := rfl
  rw [h] at h4
  simp at h4

/-- C7 amended: on the seeded empire, `get_emperor_by_year 69` returns exactly
four records in insertion order — the three short-reigned transition emperors
Galba, Otho and Vitellius, followed by Vespasian, whose reign began in 69. -/
theorem C7_amended_year_69 :
    create_roman_empire.get_emperor_by_year 69 = [galba, otho, vitellius, vespasian] ∧
    vespasian.reign_start = 69 ∧ vespasian.dynasty = some "Flavian" :=
  ⟨rfl, rfl, rfl⟩

/-- Folding `add_emperor` over a record list accumulates exactly the truthy
dynasty labels into `dynasties`. -/
theorem dynasties_foldl_add (rs : List RomanEmperor) :
    ∀ e : RomanEmpire,
      (rs.foldl RomanEmpire.add_emperor e).dynasties
        = e.dynasties ∪ truthyDynastyValues rs := by
  induction rs with
  | nil =>
    intro e
    simp [truthyDynastyValues]
  | cons r rest ih =>
    intro e
    rw [List.foldl_cons, ih]
    by_cases h : pyTruthy r.dynasty
    · rcases hd : r.dynasty with _ | d
      · rw [hd] at h
        simp [pyTruthy] at h
      · rw [hd] at h
        simp [RomanEmpire.add_emperor, truthyDynastyValues, hd, h,
          List.filterMap_cons, Finset.insert_union, Finset.union_insert]
    · simp [RomanEmpire.add_emperor, truthyDynastyValues, h, List.filterMap_cons]

/-- C5 fails as stated: a record whose `dynasty` is the empty string is
non-absent, yet after adding it from the empty collection the `dynasties` set
does not contain `""` (Python truthiness skips it), so `dynasties` differs
from the set of non-absent dynasty values. -/
theorem C5_counterexample :
    blankLabelEmperor.dynasty = some "" ∧
    ¬(([blankLabelEmperor].foldl RomanEmpire.add_emperor RomanEmpire.new).dynasties
        = specNonAbsentDynastyValues
            ([blankLabelEmperor].foldl RomanEmpire.add_emperor RomanEmpire.new).emperors) :=
  ⟨rfl, by decide⟩

/-- C5 amended: after every sequence of `add_emperor` calls starting from the
empty collection, `dynasties` equals the set of truthy (present and
non-empty) dynasty labels across the added records, and adding a record whose
non-empty dynasty label is already present leaves the set — in particular its
size — unchanged. -/
theorem C5_amended_dynasties (rs : List RomanEmperor) (e : RomanEmpire)
    (r : RomanEmperor) (d : String) :
    (rs.foldl RomanEmpire.add_emperor RomanEmpire.new).dynasties
        = truthyDynastyValues rs ∧
    (r.dynasty = some d → d ≠ "" → d ∈ e.dynasties →
        (e.add_emperor r).dynasties = e.dynasties ∧
        (e.add_emperor r).dynasties.card = e.dynasties.card) := by
  constructor
  · rw [dynasties_foldl_add]
    simp [RomanEmpire.new]
  · intro hd hne hmem
    have hins : (e.add_emperor r).dynasties = insert d e.dynasties := by
      simp [RomanEmpire.add_emperor, hd, pyTruthy, hne]
    rw [hins, Finset.insert_eq_self.mpr hmem]
    exact ⟨rfl, rfl⟩

/-- Witness for the amended C5: seeding with just Augustus yields exactly his
dynasty label, and re-adding the already-present label "Julio-Claudian" (via
Tiberius) leaves the set size unchanged. -/
theorem C5_amended_dynasties_witness :
    ([augustus].foldl RomanEmpire.add_emperor RomanEmpire.new).dynasties
        = truthyDynastyValues [augustus] ∧
    ((RomanEmpire.new.add_emperor augustus).add_emperor tiberius).dynasties.card
        = (RomanEmpire.new.add_emperor augustus).dynasties.card :=
  ⟨(C5_amended_dynasties [augustus] RomanEmpire.new augustus "x").1,
   ((C5_amended_dynasties [] (RomanEmpire.new.add_emperor augustus) tiberius
        "Julio-Claudian").2 rfl (by decide) (by decide)).2⟩

/-- `pyInStr` holds exactly when the lowered needle occurs as a contiguous
substring of the lowered haystack. -/
theorem pyInStr_iff (needle haystack : String) :
    pyInStr needle haystack = true ↔
      ∃ l r, pyLowerChars haystack = l ++ pyLowerChars needle ++ r := by
  rw [pyInStr, List.any_eq_true]
  constructor
  · rintro ⟨t, ht, hp⟩
    rw [List.mem_tails] at ht
    rw [ List.isPrefixOf_iff_prefix] at hp
    obtain ⟨pre, hpre⟩ := ht
    obtain ⟨post, hpost⟩ := hp
    refine ⟨pre, post, ?_⟩
    rw [← hpre, ← hpost]
    simp [List.append_assoc]
  · rintro ⟨l, r, h⟩
    refine ⟨pyLowerChars needle ++ r, ?_, ?_⟩
    · rw [List.mem_tails, h, List.append_assoc]
      exact List.suffix_append l _
    · rw [ List.isPrefixOf_iff_prefix]
      exact ⟨r, rfl⟩

/-- `get_emperors_by_wife` equals a filter over the stored records. -/
theorem get_emperors_by_wife_eq_filter (e : RomanEmpire) (w : String) :
    e.get_emperors_by_wife w
      = e.emperors.filter (fun r => r.wives.any (fun wife => pyInStr w wife)) := by
  have h := foldl_append_eq_filter
    (fun r : RomanEmperor => (r.wives.any fun wife => pyInStr w wife) = true)
    e.emperors []
  rw [List.nil_append] at h
  have h2 : (fun r : RomanEmperor => decide ((r.wives.any fun wife => pyInStr w wife) = true))
      = fun r : RomanEmperor => r.wives.any fun wife => pyInStr w wife := by
    funext r
    cases hc : r.wives.any fun wife => pyInStr w wife <;> simp [hc]
  rw [h2] at h
  exact h

/-- C8: `get_emperors_by_wife` returns, in insertion order (a filter of the
stored records, hence a sublist), exactly the records with at least one
`wives` entry containing the fragment case-insensitively as a substring, and
each stored occurrence of a record contributes at most one result entry even
when several of its wife entries match. -/
theorem C8_find_by_wife (e : RomanEmpire) (frag : String) :
    e.get_emperors_by_wife frag
        = e.emperors.filter (fun r => r.wives.any (fun wife => pyInStr frag wife)) ∧
    (∀ r : RomanEmperor,
        r ∈ e.get_emperors_by_wife frag ↔
          r ∈ e.emperors ∧ ∃ wife ∈ r.wives,
            ∃ l rt, pyLowerChars wife = l ++ pyLowerChars frag ++ rt) ∧
    (e.get_emperors_by_wife frag).Sublist e.emperors ∧
    (∀ r : RomanEmperor,
        (e.get_emperors_by_wife frag).count r ≤ e.emperors.count r) := by
  have hf := get_emperors_by_wife_eq_filter e frag
  have hsub : (e.get_emperors_by_wife frag).Sublist e.emperors := by
    rw [hf]
    exact List.filter_sublist _
  refine ⟨hf, ?_, hsub, ?_⟩
  · intro r
    rw [hf, List.mem_filter]
    simp only [List.any_eq_true, decide_eq_true_eq, pyInStr_iff]
  · intro r
    exact hsub.count_le r

/-- Witness for C8 on the seeded empire: the fragment "poppaea" matches
exactly Nero and Otho (each via a wife entry naming Poppaea Sabina), in
insertion order. -/
theorem C8_find_by_wife_witness :
    create_roman_empire.get_emperors_by_wife "poppaea" = [nero, otho] ∧
    (create_roman_empire.get_emperors_by_wife "poppaea").Sublist
        create_roman_empire.emperors :=
  ⟨rfl, (C8_find_by_wife create_roman_empire "poppaea").2.2.1⟩

/-- C9: none of the five top-N query methods mutates the collection: run as
state transformers, each returns the same result as the pure query and leaves
the state — in particular the stored `emperors` sequence, contents and
order — exactly as it was. -/
theorem C9_top_n_no_mutation (e : RomanEmpire) (n : Int) :
    (e.get_longest_reigningS n).2 = e ∧
    (e.get_shortest_reigningS n).2 = e ∧
    (e.get_oldest_at_deathS n).2 = e ∧
    (e.get_youngest_at_accessionS n).2 = e ∧
    (e.get_most_achievementsS n).2 = e ∧
    (e.get_longest_reigningS n).1 = e.get_longest_reigning n ∧
    (e.get_shortest_reigningS n).1 = e.get_shortest_reigning n ∧
    (e.get_oldest_at_deathS n).1 = e.get_oldest_at_death n ∧
    (e.get_youngest_at_accessionS n).1 = e.get_youngest_at_accession n ∧
    (e.get_most_achievementsS n).1 = e.get_most_achievements n ∧
    (e.get_longest_reigningS n).2.emperors = e.emperors :=
  ⟨rfl, rfl, rfl, rfl, rfl, rfl, rfl, rfl, rfl, rfl, rfl⟩

/-- Witness for C9 at the seeded empire with `n = 3`. -/
theorem C9_top_n_no_mutation_witness :
    (create_roman_empire.get_longest_reigningS 3).2 = create_roman_empire ∧
    (create_roman_empire.get_longest_reigningS 3).2.emperors
        = create_roman_empire.emperors :=
  ⟨(C9_top_n_no_mutation create_roman_empire 3).1,
   (C9_top_n_no_mutation create_roman_empire 3).2.2.2.2.2.2.2.2.2.2⟩

/-- C10: a record whose `dynasty` is the empty string (non-absent) is treated
as having no dynasty: `add_emperor` appends it without touching the
`dynasties` set, and its rendering shows the line "Dynasty: None" in the
fourth position; the same truthiness rule renders an empty-string zodiac as
"Zodiac Sign: Unknown" in the fifth position. -/
theorem C10_empty_string_labels (e : RomanEmpire) (r : RomanEmperor) :
    (r.dynasty = some "" →
        (e.add_emperor r).dynasties = e.dynasties ∧
        (e.add_emperor r).emperors = e.emperors ++ [r]) ∧
    (r.dynasty = some "" → r.infoLines[3]? = some "Dynasty: None") ∧
    (r.zodiac = some "" → r.infoLines[4]? = some "Zodiac Sign: Unknown") := by
  refine ⟨?_, ?_, ?_⟩
  · intro h
    exact ⟨by simp [RomanEmpire.add_emperor, h, pyTruthy], rfl⟩
  · intro h
    simp [RomanEmperor.infoLines, h, pyTruthy]
  · intro h
    simp [RomanEmperor.infoLines, h, pyTruthy]

/-- Witness for C10 at a concrete record with empty-string dynasty and
zodiac, added to the empty collection. -/
theorem C10_empty_string_labels_witness :
    (RomanEmpire.new.add_emperor blankLabelEmperor).dynasties
        = RomanEmpire.new.dynasties ∧
    blankLabelEmperor.infoLines[3]? = some "Dynasty: None" ∧
    blankLabelEmperor.infoLines[4]? = some "Zodiac Sign: Unknown" :=
  ⟨((C10_empty_string_labels RomanEmpire.new blankLabelEmperor).1 rfl).1,
   (C10_empty_string_labels RomanEmpire.new blankLabelEmperor).2.1 rfl,
   (C10_empty_string_labels RomanEmpire.new blankLabelEmperor).2.2 rfl⟩
